import Mathlib

/-!
# Verification of the zparcel repository

Shallow embedding of the zparcel sources (LibChaos `ZParcel4Parser` from
`src/zparcel4parser.cpp` / `.h`, and the `ZParcel` class declared in the
`zparcel.h` part of `src/main.cpp`), together with theorems settling the
frozen claims about the natural-language specification.

Machine integers are modelled as `Nat` with explicit `% 2^w` where the
source truncates; the backing file (`ZFile` / block accessor) is modelled
as a byte list together with a cursor.
-/

set_option maxHeartbeats 1000000
set_option maxRecDepth 8000
set_option linter.unusedVariables false

namespace ZParcelModel

/-! ## Byte-file model

`ZFile` exposes `setPos`, `fileSize`, `read(dest, n)` (returns the byte
count actually read, advancing the position) and `write(src, n)` (writes
all bytes at the position, extending the file when needed, advancing the
position).  We model the file as a list of bytes plus a cursor.
-/

/-- A random-access byte file: contents plus the current position. -/
structure ZFileM where
  data : List Nat
  pos : Nat
  deriving Repr, DecidableEq

/-- Embeds `ZFile::setPos`. -/
def ZFileM.setPos (f : ZFileM) (p : Nat) : ZFileM := { f with pos := p }

/-- Embeds `ZFile::fileSize`. -/
def ZFileM.fileSize (f : ZFileM) : Nat := f.data.length

/-- Overwrite the bytes of `data` starting at `pos` with `bs`, zero-padding
when `pos` is past the end of the file. -/
def listWriteAt (data : List Nat) (pos : Nat) (bs : List Nat) : List Nat :=
  data.take pos ++ List.replicate (pos - data.length) 0 ++ bs ++ data.drop (pos + bs.length)

/-- Embeds `ZFile::write(src, n)`: returns the number of bytes written and the new
file state; the position advances past the written bytes. -/
def ZFileM.write (f : ZFileM) (bs : List Nat) : Nat × ZFileM :=
  (bs.length, ⟨listWriteAt f.data f.pos bs, f.pos + bs.length⟩)

/-- Embeds `ZFile::read(dest, n)`: returns the bytes actually read (truncated at
end of file) and the new file state. -/
def ZFileM.read (f : ZFileM) (n : Nat) : List Nat × ZFileM :=
  let bs := (f.data.drop f.pos).take n
  (bs, { f with pos := f.pos + bs.length })

/-! ## ZParcelConvert byte codecs

`ZParcelConvert::toFile8Bits` / `toFile32Bits` / `toFile64Bits` and the
matching `fromFile*` functions are used by `zparcel4parser.cpp` but their
bodies live outside the repository sources.
-/

/-- Modelled from the spec: `ZParcelConvert::toFile8Bits`, the 1-byte
serializer used by the head-page codec (body not under `src/`); a single
byte, truncated to 8 bits. -/
def toFile8Bits (n : Nat) : List Nat := [n % 256]

/-- Modelled from the spec: `ZParcelConvert::fromFile8Bits`, inverse of
`toFile8Bits` (body not under `src/`). -/
def fromFile8Bits (bs : List Nat) : Nat := bs.headD 0

/-- Modelled from the spec: `ZParcelConvert::toFile32Bits`, the fixed-width
4-byte serializer used by the head-page codec (body not under `src/`);
big-endian truncation to 32 bits. -/
def toFile32Bits (n : Nat) : List Nat :=
  [n / 2 ^ 24 % 256, n / 2 ^ 16 % 256, n / 2 ^ 8 % 256, n % 256]

/-- Modelled from the spec: `ZParcelConvert::fromFile32Bits`, inverse of
`toFile32Bits` (body not under `src/`). -/
def fromFile32Bits (bs : List Nat) : Nat :=
  match bs with
  | [a, b, c, d] => ((a * 256 + b) * 256 + c) * 256 + d
  | _ => 0

/-- Modelled from the spec: `ZParcelConvert::toFile64Bits`, the fixed-width
8-byte serializer used by the typed record helpers (body not under
`src/`). -/
def toFile64Bits (n : Nat) : List Nat :=
  toFile32Bits (n / 2 ^ 32) ++ toFile32Bits n

@[simp] theorem toFile8Bits_length (n : Nat) : (toFile8Bits n).length = 1 := rfl

@[simp] theorem toFile32Bits_length (n : Nat) : (toFile32Bits n).length = 4 := rfl

theorem fromFile8Bits_toFile8Bits (n : Nat) (h : n < 256) :
    fromFile8Bits (toFile8Bits n) = n := by
  simp [fromFile8Bits, toFile8Bits, Nat.mod_eq_of_lt h]

theorem fromFile32Bits_toFile32Bits (n : Nat) (h : n < 2 ^ 32) :
    fromFile32Bits (toFile32Bits n) = n := by
  simp only [fromFile32Bits, toFile32Bits]
  omega

end ZParcelModel

namespace ZParcel4Parser

open ZParcelModel

/-- Constant `SIG_SIZE` from `zparcel4parser.cpp`. -/
def SIG_SIZE : Nat := 8

/-- Constant `VERSION_4_SIG` from `zparcel4parser.cpp`:
`{ 'P',143,'R',128,144,'L', 1 , 4 }`. -/
def VERSION_4_SIG : List Nat := [80, 143, 82, 128, 144, 76, 1, 4]

/-- Constant `ZU32_MAX`, the failure sentinel returned by `insertPage`. -/
def ZU32_MAX : Nat := 2 ^ 32 - 1

/-- Embeds `ZParcel4Parser::pagetype` from `zparcel4parser.h`. -/
inductive pagetype where
  | freepage
  | fieldpage
  | freelistpage
  | indexpage
  | recordpage
  | blobpage
  | historypage
  | headpage
  deriving Repr, DecidableEq

/-- Embeds `ZParcel4Parser::fieldtype` values (`ZPARCEL_4_*` defines); `nullfield`
is the `ZPARCEL_4_NULL` tag 0. -/
def nullfield : Nat := 0

/-- Constant `FIELD_NULL`, the null field id compared against in `addField`. -/
def FIELD_NULL : Nat := 0

/-- The member state of a `ZParcel4Parser` (from `zparcel4parser.h`),
without the `ZFile*` handle, which is threaded separately. -/
structure State where
  _init : Bool
  _pagesize : Nat
  _pagepower : Nat
  _maxpages : Nat
  _freelistpage : Nat
  _fieldpage : Nat
  _indexpage : Nat
  _recordpage : Nat
  deriving Repr, DecidableEq

/-- Embeds `ZParcel4Parser::setPageSize`: refuses to change the page size of an
initialized parcel. -/
def setPageSize (p : State) (power : Nat) : State :=
  if !p._init then
    { p with _pagepower := power, _pagesize := 2 ^ power }
  else
    p

/-- Embeds `ZParcel4Parser::setMaxPages` (head-page write-back elided; the file is
threaded separately where it matters). -/
def setMaxPagesField (p : State) (pages : Nat) : State :=
  { p with _maxpages := pages }

/-- The `ZParcel4Parser` constructor: default page size power 10, default
max pages `64 * 1024`, all page numbers 0, uninitialized. -/
def initState : State :=
  setPageSize
    { _init := false, _pagesize := 0, _pagepower := 0,
      _maxpages := 64 * 1024, _freelistpage := 0, _fieldpage := 0,
      _indexpage := 0, _recordpage := 0 } 10

/-- Embeds `ZParcel4Parser::writeHeadPage`: seek to 0, write the 8-byte signature,
the page power byte, then the five 32-bit fields; fails when any write
comes up short. -/
def writeHeadPage (p : State) (f : ZFileM) : Bool × ZFileM :=
  let f := f.setPos 0
  let r1 := f.write VERSION_4_SIG
  if r1.1 ≠ SIG_SIZE then (false, r1.2) else
  let r2 := r1.2.write (toFile8Bits p._pagepower)
  if r2.1 ≠ 1 then (false, r2.2) else
  let r3 := r2.2.write (toFile32Bits p._maxpages)
  if r3.1 ≠ 4 then (false, r3.2) else
  let r4 := r3.2.write (toFile32Bits p._freelistpage)
  if r4.1 ≠ 4 then (false, r4.2) else
  let r5 := r4.2.write (toFile32Bits p._fieldpage)
  if r5.1 ≠ 4 then (false, r5.2) else
  let r6 := r5.2.write (toFile32Bits p._indexpage)
  if r6.1 ≠ 4 then (false, r6.2) else
  let r7 := r6.2.write (toFile32Bits p._recordpage)
  if r7.1 ≠ 4 then (false, r7.2) else
  (true, r7.2)

/-- Embeds `ZParcel4Parser::loadHeadPage`: seek to 0, read and check the 8-byte
signature, then read the page power (applying `setPageSize`) and the five
32-bit fields; fails when any read comes up short or the signature
mismatches. -/
def loadHeadPage (p : State) (f : ZFileM) : Bool × State × ZFileM :=
  let f := f.setPos 0
  let r1 := f.read SIG_SIZE
  if r1.1.length ≠ SIG_SIZE then (false, p, r1.2) else
  if r1.1 ≠ VERSION_4_SIG then (false, p, r1.2) else
  let r2 := r1.2.read 1
  if r2.1.length ≠ 1 then (false, p, r2.2) else
  let p := setPageSize { p with _pagepower := fromFile8Bits r2.1 } (fromFile8Bits r2.1)
  let r3 := r2.2.read 4
  if r3.1.length ≠ 4 then (false, p, r3.2) else
  let p := { p with _maxpages := fromFile32Bits r3.1 }
  let r4 := r3.2.read 4
  if r4.1.length ≠ 4 then (false, p, r4.2) else
  let p := { p with _freelistpage := fromFile32Bits r4.1 }
  let r5 := r4.2.read 4
  if r5.1.length ≠ 4 then (false, p, r5.2) else
  let p := { p with _fieldpage := fromFile32Bits r5.1 }
  let r6 := r5.2.read 4
  if r6.1.length ≠ 4 then (false, p, r6.2) else
  let p := { p with _indexpage := fromFile32Bits r6.1 }
  let r7 := r6.2.read 4
  if r7.1.length ≠ 4 then (false, p, r7.2) else
  let p := { p with _recordpage := fromFile32Bits r7.1 }
  (true, p, r7.2)

/-- The 29 bytes `writeHeadPage` lays down at offset 0. -/
def headBytes (p : State) : List Nat :=
  VERSION_4_SIG ++ (toFile8Bits p._pagepower ++ (toFile32Bits p._maxpages ++
    (toFile32Bits p._freelistpage ++ (toFile32Bits p._fieldpage ++
      (toFile32Bits p._indexpage ++ toFile32Bits p._recordpage)))))

theorem headBytes_length (p : State) : (headBytes p).length = 29 := by
  simp [headBytes, VERSION_4_SIG, toFile8Bits, toFile32Bits]

@[simp] theorem VERSION_4_SIG_length : VERSION_4_SIG.length = 8 := rfl

/-- One sequential write step: writing `bs` at the cursor when the file is
`pre ++ t` with the cursor right after `pre` replaces the front of `t`. -/
theorem write_step (pre t bs : List Nat) (k : Nat) (hk : pre.length = k) :
    ZFileM.write ⟨pre ++ t, k⟩ bs =
      (bs.length, ⟨(pre ++ bs) ++ t.drop bs.length, k + bs.length⟩) := by
  subst hk
  have h0 : pre.length - (pre ++ t).length = 0 := by
    rw [List.length_append]; omega
  have hdrop : (pre ++ t).drop (pre.length + bs.length) = t.drop bs.length := by
    rw [← List.drop_drop, List.drop_left]
  have hdata : listWriteAt (pre ++ t) pre.length bs =
      (pre ++ bs) ++ t.drop bs.length := by
    rw [listWriteAt, List.take_left, h0, List.replicate_zero, List.append_nil,
      hdrop]
  rw [ZFileM.write, hdata]

/-- One sequential read step: reading `n = seg.length` bytes at cursor `k`
when everything from `k` on is `seg ++ rest` yields `seg`. -/
theorem read_step (seg rest d : List Nat) (n k : Nat) (hn : seg.length = n)
    (hd : d.drop k = seg ++ rest) :
    ZFileM.read ⟨d, k⟩ n = (seg, ⟨d, k + n⟩) ∧ d.drop (k + n) = rest := by
  constructor
  · simp only [ZFileM.read, hd, List.take_left' hn, hn]
  · rw [← List.drop_drop, hd, List.drop_left' hn]

/-- Lemma: `writeHeadPage` always succeeds in the model and leaves the file holding
the 29-byte head record followed by the untouched remainder. -/
theorem writeHeadPage_eq (p : State) (f : ZFileM) :
    writeHeadPage p f = (true, ⟨headBytes p ++ f.data.drop 29, 29⟩) := by
  obtain ⟨d, k⟩ := f
  have h1 := write_step [] d VERSION_4_SIG 0 rfl
  have h2 := write_step VERSION_4_SIG (d.drop 8) (toFile8Bits p._pagepower) 8 rfl
  have h3 := write_step (VERSION_4_SIG ++ toFile8Bits p._pagepower)
    ((d.drop 8).drop 1) (toFile32Bits p._maxpages) 9 (by simp [VERSION_4_SIG])
  have h4 := write_step ((VERSION_4_SIG ++ toFile8Bits p._pagepower) ++
      toFile32Bits p._maxpages)
    (((d.drop 8).drop 1).drop 4) (toFile32Bits p._freelistpage) 13
    (by simp [VERSION_4_SIG])
  have h5 := write_step (((VERSION_4_SIG ++ toFile8Bits p._pagepower) ++
      toFile32Bits p._maxpages) ++ toFile32Bits p._freelistpage)
    ((((d.drop 8).drop 1).drop 4).drop 4) (toFile32Bits p._fieldpage) 17
    (by simp [VERSION_4_SIG])
  have h6 := write_step ((((VERSION_4_SIG ++ toFile8Bits p._pagepower) ++
      toFile32Bits p._maxpages) ++ toFile32Bits p._freelistpage) ++
      toFile32Bits p._fieldpage)
    (((((d.drop 8).drop 1).drop 4).drop 4).drop 4) (toFile32Bits p._indexpage) 21
    (by simp [VERSION_4_SIG])
  have h7 := write_step (((((VERSION_4_SIG ++ toFile8Bits p._pagepower) ++
      toFile32Bits p._maxpages) ++ toFile32Bits p._freelistpage) ++
      toFile32Bits p._fieldpage) ++ toFile32Bits p._indexpage)
    ((((((d.drop 8).drop 1).drop 4).drop 4).drop 4).drop 4)
    (toFile32Bits p._recordpage) 25 (by simp [VERSION_4_SIG])
  norm_num [List.nil_append, List.drop_drop, toFile8Bits_length,
    toFile32Bits_length] at h1 h2 h3 h4 h5 h6 h7
  simp only [writeHeadPage, ZFileM.setPos, h1, h2, h3, h4, h5, h6, h7,
    toFile8Bits_length, toFile32Bits_length, SIG_SIZE]
  norm_num [headBytes, List.append_assoc]

theorem fromFile8Bits_toFile8Bits_mod (n : Nat) :
    fromFile8Bits (toFile8Bits n) = n % 256 := rfl

theorem fromFile32Bits_toFile32Bits_mod (n : Nat) :
    fromFile32Bits (toFile32Bits n) = n % 2 ^ 32 := by
  simp only [fromFile32Bits, toFile32Bits]
  omega

/-- Reading the head record back: on a file whose contents start with
`headBytes p`, `loadHeadPage` succeeds and restores the six configuration
fields of `p`, truncated to their machine widths. -/
theorem loadHeadPage_headBytes (p q : State) (tail : List Nat) (k : Nat) :
    (loadHeadPage q ⟨headBytes p ++ tail, k⟩).1 = true ∧
    ((loadHeadPage q ⟨headBytes p ++ tail, k⟩).2.1)._pagepower = p._pagepower % 256 ∧
    ((loadHeadPage q ⟨headBytes p ++ tail, k⟩).2.1)._maxpages = p._maxpages % 2 ^ 32 ∧
    ((loadHeadPage q ⟨headBytes p ++ tail, k⟩).2.1)._freelistpage = p._freelistpage % 2 ^ 32 ∧
    ((loadHeadPage q ⟨headBytes p ++ tail, k⟩).2.1)._fieldpage = p._fieldpage % 2 ^ 32 ∧
    ((loadHeadPage q ⟨headBytes p ++ tail, k⟩).2.1)._indexpage = p._indexpage % 2 ^ 32 ∧
    ((loadHeadPage q ⟨headBytes p ++ tail, k⟩).2.1)._recordpage = p._recordpage % 2 ^ 32 := by
  have hd0 : (headBytes p ++ tail).drop 0 =
      VERSION_4_SIG ++ (toFile8Bits p._pagepower ++ (toFile32Bits p._maxpages ++
        (toFile32Bits p._freelistpage ++ (toFile32Bits p._fieldpage ++
          (toFile32Bits p._indexpage ++ (toFile32Bits p._recordpage ++ tail)))))) := by
    simp [headBytes, List.append_assoc]
  have s1 := read_step VERSION_4_SIG _ (headBytes p ++ tail) 8 0 rfl hd0
  norm_num at s1
  have s2 := read_step (toFile8Bits p._pagepower) _ (headBytes p ++ tail) 1 8
    (toFile8Bits_length _) s1.2
  norm_num at s2
  have s3 := read_step (toFile32Bits p._maxpages) _ (headBytes p ++ tail) 4 9
    (toFile32Bits_length _) s2.2
  norm_num at s3
  have s4 := read_step (toFile32Bits p._freelistpage) _ (headBytes p ++ tail) 4 13
    (toFile32Bits_length _) s3.2
  norm_num at s4
  have s5 := read_step (toFile32Bits p._fieldpage) _ (headBytes p ++ tail) 4 17
    (toFile32Bits_length _) s4.2
  norm_num at s5
  have s6 := read_step (toFile32Bits p._indexpage) _ (headBytes p ++ tail) 4 21
    (toFile32Bits_length _) s5.2
  norm_num at s6
  have s7 := read_step (toFile32Bits p._recordpage) _ (headBytes p ++ tail) 4 25
    (toFile32Bits_length _) s6.2
  norm_num at s7
  by_cases hq : q._init <;>
    simp [loadHeadPage, ZFileM.setPos, SIG_SIZE, s1.1, s2.1, s3.1, s4.1, s5.1,
      s6.1, s7.1, fromFile8Bits_toFile8Bits_mod, fromFile32Bits_toFile32Bits_mod,
      setPageSize, hq]

/-- Sample writing configuration: the values `main.cpp` uses for `create`
(page power 11, max pages `64 * 1024 * 2`), with arbitrary page numbers. -/
def sampleP : State :=
  { _init := true, _pagesize := 2048, _pagepower := 11, _maxpages := 131072,
    _freelistpage := 3, _fieldpage := 4, _indexpage := 5, _recordpage := 6 }

/-- Sample loading parser: freshly constructed, as `open` produces it. -/
def sampleQ : State := initState

/-- Sample backing file. -/
def sampleF : ZFileM := ⟨[9, 9, 9], 0⟩

/-- C8: head-page round trip — for every parser configuration (page-size
power, max pages, and freelist/field/index/record page numbers, each within
its machine width), `writeHeadPage` followed by `loadHeadPage` on the same
file succeeds and restores exactly those six values. -/
theorem head_page_roundtrip (p q : State) (f : ZFileM)
    (hpow : p._pagepower < 256) (hmax : p._maxpages < 2 ^ 32)
    (hfree : p._freelistpage < 2 ^ 32) (hfield : p._fieldpage < 2 ^ 32)
    (hindex : p._indexpage < 2 ^ 32) (hrec : p._recordpage < 2 ^ 32) :
    (writeHeadPage p f).1 = true ∧
    (loadHeadPage q (writeHeadPage p f).2).1 = true ∧
    ((loadHeadPage q (writeHeadPage p f).2).2.1)._pagepower = p._pagepower ∧
    ((loadHeadPage q (writeHeadPage p f).2).2.1)._maxpages = p._maxpages ∧
    ((loadHeadPage q (writeHeadPage p f).2).2.1)._freelistpage = p._freelistpage ∧
    ((loadHeadPage q (writeHeadPage p f).2).2.1)._fieldpage = p._fieldpage ∧
    ((loadHeadPage q (writeHeadPage p f).2).2.1)._indexpage = p._indexpage ∧
    ((loadHeadPage q (writeHeadPage p f).2).2.1)._recordpage = p._recordpage := by
  have h := loadHeadPage_headBytes p q (f.data.drop 29) 29
  simp only [writeHeadPage_eq]
  exact ⟨by trivial, h.1,
    by rw [h.2.1, Nat.mod_eq_of_lt hpow],
    by rw [h.2.2.1, Nat.mod_eq_of_lt hmax],
    by rw [h.2.2.2.1, Nat.mod_eq_of_lt hfree],
    by rw [h.2.2.2.2.1, Nat.mod_eq_of_lt hfield],
    by rw [h.2.2.2.2.2.1, Nat.mod_eq_of_lt hindex],
    by rw [h.2.2.2.2.2.2, Nat.mod_eq_of_lt hrec]⟩

/-- Concrete witness for `head_page_roundtrip` at the `sampleP`/`sampleQ`
configuration over the file `sampleF`. -/
theorem head_page_roundtrip_witness :
    (writeHeadPage sampleP sampleF).1 = true ∧
    (loadHeadPage sampleQ (writeHeadPage sampleP sampleF).2).1 = true ∧
    ((loadHeadPage sampleQ (writeHeadPage sampleP sampleF).2).2.1)._pagepower = sampleP._pagepower ∧
    ((loadHeadPage sampleQ (writeHeadPage sampleP sampleF).2).2.1)._maxpages = sampleP._maxpages ∧
    ((loadHeadPage sampleQ (writeHeadPage sampleP sampleF).2).2.1)._freelistpage = sampleP._freelistpage ∧
    ((loadHeadPage sampleQ (writeHeadPage sampleP sampleF).2).2.1)._fieldpage = sampleP._fieldpage ∧
    ((loadHeadPage sampleQ (writeHeadPage sampleP sampleF).2).2.1)._indexpage = sampleP._indexpage ∧
    ((loadHeadPage sampleQ (writeHeadPage sampleP sampleF).2).2.1)._recordpage = sampleP._recordpage :=
  head_page_roundtrip sampleP sampleQ sampleF (by decide) (by decide)
    (by decide) (by decide) (by decide) (by decide)

/-! ## Field and record operations (`zparcel4parser.cpp`)

Strings, binaries, paths and UIDs are modelled as byte lists.
-/

/-- Embeds `ZParcel4Parser::getFieldId`: body returns 0 unconditionally. -/
def getFieldId (name : List Nat) : Nat := 0

/-- Embeds `ZParcel4Parser::getFieldType`: body returns `nullfield`
unconditionally. -/
def getFieldType (id : Nat) : Nat := nullfield

/-- Embeds `ZParcel4Parser::addField`: returns the existing id when the name
resolves and the type matches, otherwise 0. -/
def addField (name : List Nat) (type : Nat) : Nat :=
  let id := getFieldId name
  if id ≠ FIELD_NULL ∧ type = getFieldType id then id else 0

/-- A `Field` of a `FieldList` (`zparcel4parser.h`): id plus data bytes. -/
structure Field where
  id : Nat
  data : List Nat
  deriving Repr, DecidableEq

/-- Embeds `ZParcel4Parser::addRecord`: body returns false unconditionally. -/
def addRecord (p : State) (f : ZFileM) (fields : List Field) : Bool := false

/-- Embeds `ZParcel4Parser::addUintRecord`: builds a local 64-bit encoding and
discards it; parser and file are untouched. -/
def addUintRecord (p : State) (f : ZFileM) (field num : Nat) : State × ZFileM :=
  let _bin := toFile64Bits num
  (p, f)

/-- Embeds `ZParcel4Parser::addSintRecord`: builds a local 64-bit encoding of the
value cast to unsigned and discards it. -/
def addSintRecord (p : State) (f : ZFileM) (field : Nat) (num : Int) : State × ZFileM :=
  let _bin := toFile64Bits (num % 2 ^ 64).toNat
  (p, f)

/-- Embeds `ZParcel4Parser::addZUIDRecord`: builds a local copy of the 16 raw UID
bytes and discards it. -/
def addZUIDRecord (p : State) (f : ZFileM) (field : Nat) (uid : List Nat) : State × ZFileM :=
  let _bin := uid.take 16
  (p, f)

/-- Embeds `ZParcel4Parser::addFloatRecord`: empty body. -/
def addFloatRecord (p : State) (f : ZFileM) (field flt : Nat) : State × ZFileM :=
  (p, f)

/-- Embeds `ZParcel4Parser::addStringRecord`: builds a local copy of the string
bytes and discards it. -/
def addStringRecord (p : State) (f : ZFileM) (field : Nat) (str : List Nat) : State × ZFileM :=
  let _bin := str
  (p, f)

/-- Embeds `ZParcel4Parser::addBinaryRecord`: empty body. -/
def addBinaryRecord (p : State) (f : ZFileM) (field : Nat) (bin : List Nat) : State × ZFileM :=
  (p, f)

/-- Embeds `ZParcel4Parser::addFileRecord`: builds a local copy of the path string
bytes and discards it. -/
def addFileRecord (p : State) (f : ZFileM) (field : Nat) (file : List Nat) : State × ZFileM :=
  let str := file
  let _bin := str
  (p, f)

/-! ## Page insertion and the freelist (`zparcel4parser.cpp`) -/

/-- Embeds `ZParcel4Parser::zeroPad`: pads the end of the file with up to 1024
zero bytes when the file size is not page-aligned; always returns true. -/
def zeroPad (p : State) (f : ZFileM) : Bool × ZFileM :=
  let pad := f.fileSize % p._pagesize
  let f := f.setPos f.fileSize
  if pad ≠ 0 then
    let fill := min pad 1024
    (true, (f.write (List.replicate fill 0)).2)
  else
    (true, f)

/-- Embeds `ZParcel4Parser::insertPage`: only the head-page case can succeed
(returning page 0); the field-page case zero-pads and falls through; every
other case falls through to the `ZU32_MAX` failure sentinel. -/
def insertPage (p : State) (f : ZFileM) (type : pagetype) : Nat × State × ZFileM :=
  match type with
  | .headpage =>
    let r := writeHeadPage p f
    if r.1 then (0, p, r.2) else (ZU32_MAX, p, r.2)
  | .fieldpage =>
    let r := zeroPad p f
    (ZU32_MAX, p, r.2)
  | _ => (ZU32_MAX, p, f)

/-- Embeds `ZParcel4Parser::addToFreelist`: when no freelist page exists, stores
`insertPage(freelistpage)`'s result into `_freelistpage`; always returns
false. -/
def addToFreelist (p : State) (f : ZFileM) (page : Nat) : Bool × State × ZFileM :=
  let s :=
    if p._freelistpage = 0 then
      let r := insertPage p f .freelistpage
      ({ r.2.1 with _freelistpage := r.1 }, r.2.2)
    else (p, f)
  (false, s.1, s.2)

/-- Embeds `ZParcel4Parser::freePage`: writes the free-page type byte at the start
of the page, then tries `addToFreelist`; returns true only when both
steps succeed. -/
def freePage (p : State) (f : ZFileM) (page : Nat) : Bool × State × ZFileM :=
  let f := f.setPos (page * p._pagesize)
  let r := f.write [0]
  if r.1 = 1 then
    let a := addToFreelist p r.2 page
    if a.1 then (true, a.2.1, a.2.2) else (false, a.2.1, a.2.2)
  else
    (false, p, r.2)

/-- C9: the field and record operations of the page-oriented parser are
inert — `addRecord` returns false, `addField` and `getFieldId` return 0,
`getFieldType` returns `nullfield`, and the typed record helpers leave the
parser state and the file unchanged, for every input. -/
theorem field_record_ops_inert :
    (∀ p f fields, addRecord p f fields = false) ∧
    (∀ name type, addField name type = 0) ∧
    (∀ name, getFieldId name = 0) ∧
    (∀ id, getFieldType id = nullfield) ∧
    (∀ p f field num, addUintRecord p f field num = (p, f)) ∧
    (∀ p f field num, addSintRecord p f field num = (p, f)) ∧
    (∀ p f field uid, addZUIDRecord p f field uid = (p, f)) ∧
    (∀ p f field flt, addFloatRecord p f field flt = (p, f)) ∧
    (∀ p f field str, addStringRecord p f field str = (p, f)) ∧
    (∀ p f field bin, addBinaryRecord p f field bin = (p, f)) ∧
    (∀ p f field file, addFileRecord p f field file = (p, f)) := by
  refine ⟨fun _ _ _ => rfl, fun name type => ?_, fun _ => rfl, fun _ => rfl,
    fun _ _ _ _ => rfl, fun _ _ _ _ => rfl, fun _ _ _ _ => rfl,
    fun _ _ _ _ => rfl, fun _ _ _ _ => rfl, fun _ _ _ _ => rfl,
    fun _ _ _ _ => rfl⟩
  simp [addField, getFieldId, FIELD_NULL]

/-- C10: page reclamation always fails — `addToFreelist` returns false,
`freePage` returns false after writing the free-page type byte at the start
of the page, and when no freelist page exists the failure sentinel
`ZU32_MAX` of `insertPage` is stored into `_freelistpage` instead of a
fresh freelist page number. -/
theorem page_reclamation_fails (p : State) (f : ZFileM) (page : Nat) :
    (addToFreelist p f page).1 = false ∧
    (freePage p f page).1 = false ∧
    (freePage p f page).2.2.data = listWriteAt f.data (page * p._pagesize) [0] ∧
    (p._freelistpage = 0 →
      (addToFreelist p f page).2.1._freelistpage = ZU32_MAX) := by
  refine ⟨rfl, ?_, ?_, fun hfl => ?_⟩
  · simp [freePage, addToFreelist, ZFileM.write, ZFileM.setPos]
  · by_cases hfl : p._freelistpage = 0 <;>
      simp [freePage, addToFreelist, insertPage, ZFileM.write, ZFileM.setPos, hfl]
  · simp [addToFreelist, insertPage, hfl]

/-- Concrete witness for `page_reclamation_fails`: a fresh parser (whose
`_freelistpage` is 0) over a 3-byte file, freeing page 0. -/
theorem page_reclamation_fails_witness :
    (addToFreelist initState sampleF 0).1 = false ∧
    (freePage initState sampleF 0).1 = false ∧
    (freePage initState sampleF 0).2.2.data = listWriteAt sampleF.data (0 * initState._pagesize) [0] ∧
    (addToFreelist initState sampleF 0).2.1._freelistpage = ZU32_MAX := by
  have h := page_reclamation_fails initState sampleF 0
  exact ⟨h.1, h.2.1, h.2.2.1, h.2.2.2 (by decide)⟩

end ZParcel4Parser

namespace ZParcel

open ZParcelModel

/-! ## ZParcel (the `zparcel.h` part of `src/main.cpp`)

The class declaration, enums, node-size constants and the inline methods
of `ParcelObjectAccessor` are in the repository sources; the bodies of the
remaining member functions (`zparcel.cpp`) are not, and are modelled from
the spec where a claim needs them.
-/

/-- Embeds `ZParcel::parcelstate`. -/
inductive parcelstate where
  | OPEN
  | CLOSED
  | LOCKED
  deriving Repr, DecidableEq

/-- Embeds `ZParcel::parcelerror`. -/
inductive parcelerror where
  | OK
  | ERR_OPEN
  | ERR_SEEK
  | ERR_READ
  | ERR_WRITE
  | ERR_EXISTS
  | ERR_NOEXIST
  | ERR_CRC
  | ERR_TRUNC
  | ERR_TREE
  | ERR_FREELIST
  | ERR_NOFREE
  | ERR_SIG
  | ERR_VERSION
  | ERR_MAX_DEPTH
  | ERR_MAGIC
  deriving Repr, DecidableEq

/-- Object type tags from the anonymous enum in `zparcel.h`. -/
def NULLOBJ : Nat := 0

def BOOLOBJ : Nat := 1

def UINTOBJ : Nat := 2

def SINTOBJ : Nat := 3

def FLOATOBJ : Nat := 4

def ZUIDOBJ : Nat := 5

def BLOBOBJ : Nat := 6

def STRINGOBJ : Nat := 7

def LISTOBJ : Nat := 8

def FILEOBJ : Nat := 9

def MAX_OBJTYPE : Nat := 10

/-- Constant `UNKNOWNOBJ` (255), the sentinel object type. -/
def UNKNOWNOBJ : Nat := 255

/-- Constant `VERSION1`, the only defined parcel type tag (`parceltype`). -/
def VERSION1 : Nat := 1

/-- Constant `ZUID_SIZE`: a UID is 128 bits, 16 bytes. -/
def ZUID_SIZE : Nat := 16

/-- A UID, modelled as its 16 raw bytes. -/
abbrev ZUID := List Nat

/-! ### ParcelObjectAccessor (inline in `zparcel.h`) -/

/-- Embeds `ZParcel::ParcelObjectAccessor` member state (the borrowed
`ZBlockAccessor*` is omitted; these three fields fully determine
`available`/`tell`/`seek`/`atEnd`). -/
structure ParcelObjectAccessor where
  _base : Nat
  _pos : Nat
  _size : Nat
  deriving Repr, DecidableEq

/-- The constructor: `_file(file), _base(offset), _pos(0), _size(size)`. -/
def ParcelObjectAccessor.make (offset size : Nat) : ParcelObjectAccessor :=
  { _base := offset, _pos := 0, _size := size }

/-- Embeds `ParcelObjectAccessor::available`: `(_base + _size) - _pos`. -/
def ParcelObjectAccessor.available (a : ParcelObjectAccessor) : Nat :=
  (a._base + a._size) - a._pos

/-- Embeds `ParcelObjectAccessor::tell`: `_pos`. -/
def ParcelObjectAccessor.tell (a : ParcelObjectAccessor) : Nat := a._pos

/-- Embeds `ParcelObjectAccessor::seek`: `_pos = MIN(pos, _base + _size)`. -/
def ParcelObjectAccessor.seek (a : ParcelObjectAccessor) (pos : Nat) :
    ParcelObjectAccessor :=
  { a with _pos := min pos (a._base + a._size) }

/-- Embeds `ParcelObjectAccessor::atEnd`: `tell() == _base + _size`. -/
def ParcelObjectAccessor.atEnd (a : ParcelObjectAccessor) : Bool :=
  a.tell == a._base + a._size

/-- C1 evaluated on the code: over the window `[1, 2)` (base 1, size 1) the
freshly constructed accessor's cursor is 0 — below the window base — and
`seek 0` keeps it there, while `available()` reports 2 bytes, more than the
1 byte the window holds; the accessor therefore does permit addressing
bytes outside its window. -/
theorem accessor_escapes_window :
    (ParcelObjectAccessor.make 1 1).tell = 0 ∧
    ((ParcelObjectAccessor.make 1 1).seek 0).tell = 0 ∧
    (ParcelObjectAccessor.make 1 1).available = 2 ∧
    ¬((ParcelObjectAccessor.make 1 1)._base ≤ ((ParcelObjectAccessor.make 1 1).seek 0).tell) ∧
    ¬((ParcelObjectAccessor.make 1 1).available ≤ (ParcelObjectAccessor.make 1 1)._size) := by
  decide

/-! ### Record sizes (`NODE_SIZE` constants in `zparcel.h`) -/

/-- Constant `ParcelHeader::NODE_SIZE = (7 + 1 + 4 + 8 + 8 + 8 + 8 + ZUID_SIZE + 4)`. -/
def ParcelHeader.NODE_SIZE : Nat := 7 + 1 + 4 + 8 + 8 + 8 + 8 + ZUID_SIZE + 4

/-- Constant `ParcelTreeNode::NODE_SIZE = (4 + ZUID_SIZE + 8 + 8 + 1 + 1 + 4 + 16)`. -/
def ParcelTreeNode.NODE_SIZE : Nat := 4 + ZUID_SIZE + 8 + 8 + 1 + 1 + 4 + 16

/-- Constant `ParcelFreeNode::NODE_SIZE = (4 + 8 + 8 + 4)`. -/
def ParcelFreeNode.NODE_SIZE : Nat := 4 + 8 + 8 + 4

/-- The spec's header layout, §6: 7-byte signature, 1-byte version, 4-byte
flags, four 8-byte pointers, 16-byte root UID, 4-byte checksum. Stated from
the spec's words, to be compared with the source constants. -/
def headerLayoutSpec : List Nat := [7, 1, 4, 8, 8, 8, 8, 16, 4]

/-- The spec's tree-node layout, §6: 4B magic + 16B UID + 8B left + 8B
right + 1B type + 1B extra + 4B checksum + 16B payload. -/
def treeNodeLayoutSpec : List Nat := [4, 16, 8, 8, 1, 1, 4, 16]

/-- The spec's freelist-node layout, §6: 4B magic + 8B next + 8B size +
4B checksum. -/
def freeNodeLayoutSpec : List Nat := [4, 8, 8, 4]

/-! ### Wire codec for the version-1 records -/

/-- Fixed-width big-endian byte serialization: `bytesBE w n` is the `w`
low-order bytes of `n`, most significant first. -/
def bytesBE : Nat → Nat → List Nat
  | 0, _ => []
  | w + 1, n => bytesBE w (n / 256) ++ [n % 256]

/-- Fixed-width big-endian byte deserialization. -/
def readBE (bs : List Nat) : Nat :=
  bs.foldl (fun a b => a * 256 + b) 0

@[simp] theorem bytesBE_length (w n : Nat) : (bytesBE w n).length = w := by
  induction w generalizing n with
  | zero => rfl
  | succ w ih => simp [bytesBE, ih]

/-- Modelled from the spec: the 7-byte format signature preceding the
version-1 header fields (§6); the literal signature bytes live in the
`ZParcel` implementation, which is not under `src/`. -/
def PARCEL_SIG : List Nat := [80, 65, 82, 67, 76, 1, 0]

/-- Modelled from the spec: the per-record 32-bit checksum computed over
the record's preceding fixed-size fields (§6); the CRC-32 routine lives in
LibChaos outside `src/`, so it is modelled as a deterministic 32-bit digest
of those bytes. -/
def crc32 (bs : List Nat) : Nat :=
  bs.foldl (fun a b => (a * 131 + b + 7) % 2 ^ 32) 1

/-- Embeds `ZParcel::ParcelHeader` fields (`zparcel.h`): version, flags, tree
root, freelist head and tail, tail pointer, root UID. -/
structure ParcelHeader where
  version : Nat
  flags : Nat
  treehead : Nat
  freehead : Nat
  freetail : Nat
  tailptr : Nat
  root : ZUID
  deriving Repr, DecidableEq

/-- Normalize a UID to exactly its 16 bytes. -/
def padUID (u : ZUID) : List Nat :=
  (u ++ List.replicate ZUID_SIZE 0).take ZUID_SIZE

@[simp] theorem padUID_length (u : ZUID) : (padUID u).length = 16 := by
  simp [padUID, ZUID_SIZE]

/-- Modelled from the spec: serialization of the header's fixed fields
preceding the checksum — 7-byte signature, 1-byte version, 4-byte flags,
four 8-byte pointers, 16-byte root UID (`ParcelHeader::write` lives in the
`ZParcel` implementation, not under `src/`). -/
def ParcelHeader.fixedBytes (h : ParcelHeader) : List Nat :=
  PARCEL_SIG ++ bytesBE 1 h.version ++ bytesBE 4 h.flags ++
    bytesBE 8 h.treehead ++ bytesBE 8 h.freehead ++ bytesBE 8 h.freetail ++
    bytesBE 8 h.tailptr ++ padUID h.root

/-- Modelled from the spec: the full serialized header record — the fixed
fields followed by their 4-byte checksum, recomputed on write. -/
def ParcelHeader.writeBytes (h : ParcelHeader) : List Nat :=
  h.fixedBytes ++ bytesBE 4 (crc32 h.fixedBytes)

theorem ParcelHeader.fixedBytes_length (h : ParcelHeader) :
    h.fixedBytes.length = 60 := by
  simp [ParcelHeader.fixedBytes, PARCEL_SIG]

/-- C3: the on-disk records have exactly the fixed sizes the spec gives —
the field-size breakdowns stated from the spec sum to the source
`NODE_SIZE` constants (64, 58 and 24 bytes), and the serialized header
record occupies exactly `ParcelHeader::NODE_SIZE` bytes. -/
theorem record_sizes :
    headerLayoutSpec.sum = ParcelHeader.NODE_SIZE ∧
    treeNodeLayoutSpec.sum = ParcelTreeNode.NODE_SIZE ∧
    freeNodeLayoutSpec.sum = ParcelFreeNode.NODE_SIZE ∧
    ParcelHeader.NODE_SIZE = 64 ∧
    ParcelTreeNode.NODE_SIZE = 58 ∧
    ParcelFreeNode.NODE_SIZE = 24 ∧
    (∀ h : ParcelHeader, h.writeBytes.length = ParcelHeader.NODE_SIZE) := by
  refine ⟨by decide, by decide, by decide, by decide, by decide, by decide, ?_⟩
  intro h
  simp [ParcelHeader.writeBytes, ParcelHeader.fixedBytes_length,
    ParcelHeader.NODE_SIZE, ZUID_SIZE]

/-- Modelled from the spec: `ParcelHeader::read` — load the header record
from offset 0 and validate it, failing with `ERR_SIG` on signature
mismatch, `ERR_VERSION` on an unsupported version, and `ERR_CRC` when the
stored checksum differs from the checksum recomputed over the preceding
fixed-size fields (the body lives in the `ZParcel` implementation, not
under `src/`). -/
def ParcelHeader.read (d : List Nat) : Except parcelerror ParcelHeader :=
  if d.length < ParcelHeader.NODE_SIZE then .error .ERR_READ
  else if d.take 7 ≠ PARCEL_SIG then .error .ERR_SIG
  else if readBE ((d.drop 7).take 1) ≠ VERSION1 then .error .ERR_VERSION
  else if readBE ((d.drop 60).take 4) ≠ crc32 (d.take 60) then .error .ERR_CRC
  else .ok
    { version := readBE ((d.drop 7).take 1),
      flags := readBE ((d.drop 8).take 4),
      treehead := readBE ((d.drop 12).take 8),
      freehead := readBE ((d.drop 20).take 8),
      freetail := readBE ((d.drop 28).take 8),
      tailptr := readBE ((d.drop 36).take 8),
      root := (d.drop 44).take 16 }

/-! ### Store façade

Modelled from the spec (§4.4): the `ZParcel` member function bodies live in
the implementation file, which is not under `src/`; the declarations, the
enums and the doc comments are in `zparcel.h`.  The tree contents are
represented as a finite map from UID to typed entry, the payload union as a
tagged variant (as §9 directs), and the I/O each operation performs against
the block accessor as an explicit event trace.
-/

/-- The payload union of a tree node, as a tagged variant: one constructor
per object type. -/
inductive ObjPayload where
  | nullP
  | boolP (b : Bool)
  | uintP (n : Nat)
  | sintP (n : Int)
  | floatP (bits : Nat)
  | zuidP (u : ZUID)
  | blobP (bs : List Nat)
  | stringP (bs : List Nat)
  | listP (us : List ZUID)
  | fileP (nameid dataid : ZUID)
  deriving Repr, DecidableEq

/-- One stored object: its type tag and payload. -/
structure Entry where
  type : Nat
  payload : ObjPayload
  deriving Repr, DecidableEq

/-- An I/O event against the underlying block accessor. -/
inductive IOEvent where
  | readEv (off len : Nat)
  | writeEv (off len : Nat)
  deriving Repr, DecidableEq

/-- The result of a façade operation: `notOpen` is the distinct,
immediate precondition failure for operating on a non-open parcel (the
source docs report it as a `ZException`, separate from the `parcelerror`
codes); `wrongType` is the fetch-with-wrong-type condition. -/
inductive OpOutcome (α : Type) where
  | notOpen
  | wrongType
  | err (e : parcelerror)
  | ok (v : α)
  deriving Repr, DecidableEq

/-- The `ZParcel` member state: `_state` (from `zparcel.h`), the cached
header, and the tree contents abstracted as a UID-keyed map. -/
structure ZParcelSt where
  _state : parcelstate
  _header : Option ParcelHeader
  objects : List (ZUID × Entry)
  deriving Repr, DecidableEq

/-- A freshly constructed parcel: closed, nothing loaded. -/
def initParcel : ZParcelSt :=
  { _state := .CLOSED, _header := none, objects := [] }

/-- Modelled from the spec: the header `create` initializes — version 1,
empty tree, empty freelist, tail right after the header record. -/
def defaultHeader : ParcelHeader :=
  { version := VERSION1, flags := 0, treehead := 0, freehead := 0,
    freetail := 0, tailptr := ParcelHeader.NODE_SIZE,
    root := List.replicate 16 0 }

/-- Modelled from the spec: `ZParcel::create` — write a fresh header and
open the parcel (body not under `src/`). -/
def createParcel (p : ZParcelSt) : parcelerror × ZParcelSt :=
  (.OK, { _state := .OPEN, _header := some defaultHeader, objects := [] })

/-- Modelled from the spec: `ZParcel::open` — read and validate the header
record; on any failure the typed error is returned and the parcel is left
unopened, otherwise the parcel becomes `OPEN` (body not under `src/`). -/
def openParcel (p : ZParcelSt) (d : List Nat) : parcelerror × ZParcelSt :=
  match ParcelHeader.read d with
  | .error e => (e, p)
  | .ok h =>
      (.OK, { p with _state := .OPEN, _header := some h, objects := [] })

/-- Modelled from the spec: `ZParcel::close` — close handles, drop the
cache, return to `CLOSED` (body not under `src/`). -/
def closeParcel (p : ZParcelSt) : ZParcelSt :=
  { p with _state := .CLOSED }

/-- Modelled from the spec: the shared store path of the typed `store*`
operations — requires `OPEN` (failing immediately, with no I/O, otherwise),
then writes the object's tree node, inserting or updating. -/
def storeObject (p : ZParcelSt) (id : ZUID) (type : Nat) (pl : ObjPayload) :
    OpOutcome Unit × ZParcelSt × List IOEvent :=
  if p._state ≠ .OPEN then (.notOpen, p, [])
  else
    (.ok (),
     { p with objects := (id, ⟨type, pl⟩) :: p.objects.filter (fun e => !(e.1 == id)) },
     [.writeEv 0 ParcelTreeNode.NODE_SIZE])

/-- Modelled from the spec: the shared fetch path of the typed `fetch*`
operations — requires `OPEN` (failing immediately, with no I/O, otherwise),
then a tree lookup, `ERR_NOEXIST` when absent. -/
def fetchObject (p : ZParcelSt) (id : ZUID) :
    OpOutcome Entry × ZParcelSt × List IOEvent :=
  if p._state ≠ .OPEN then (.notOpen, p, [])
  else
    match List.lookup id p.objects with
    | none => (.err .ERR_NOEXIST, p, [.readEv 0 ParcelTreeNode.NODE_SIZE])
    | some e => (.ok e, p, [.readEv 0 ParcelTreeNode.NODE_SIZE])

/-- Modelled from the spec: `ZParcel::removeObject` — requires `OPEN`
(failing immediately, with no I/O, otherwise); tree delete, `ERR_NOEXIST`
when absent. -/
def removeObject (p : ZParcelSt) (id : ZUID) :
    OpOutcome Unit × ZParcelSt × List IOEvent :=
  if p._state ≠ .OPEN then (.notOpen, p, [])
  else
    match List.lookup id p.objects with
    | none => (.err .ERR_NOEXIST, p, [.readEv 0 ParcelTreeNode.NODE_SIZE])
    | some _ =>
        (.ok (),
         { p with objects := p.objects.filter (fun e => !(e.1 == id)) },
         [.readEv 0 ParcelTreeNode.NODE_SIZE,
          .writeEv 0 ParcelTreeNode.NODE_SIZE])

/-- Modelled from the spec: `ZParcel::exists` — tree lookup without
decoding the payload. -/
def existsObj (p : ZParcelSt) (id : ZUID) : Bool :=
  (List.lookup id p.objects).isSome

/-- Modelled from the spec: `ZParcel::getType` — tree lookup without
decoding the payload; returns the `UNKNOWNOBJ` sentinel when absent,
letting callers branch without an error check. -/
def getType (p : ZParcelSt) (id : ZUID) : Nat :=
  match List.lookup id p.objects with
  | some e => e.type
  | none => UNKNOWNOBJ

/-- Modelled from the spec: `ZParcel::storeNull`. -/
def storeNull (p : ZParcelSt) (id : ZUID) :
    OpOutcome Unit × ZParcelSt × List IOEvent :=
  storeObject p id NULLOBJ .nullP

/-- Modelled from the spec: `ZParcel::storeBool`. -/
def storeBool (p : ZParcelSt) (id : ZUID) (b : Bool) :
    OpOutcome Unit × ZParcelSt × List IOEvent :=
  storeObject p id BOOLOBJ (.boolP b)

/-- Modelled from the spec: `ZParcel::storeUint`. -/
def storeUint (p : ZParcelSt) (id : ZUID) (num : Nat) :
    OpOutcome Unit × ZParcelSt × List IOEvent :=
  storeObject p id UINTOBJ (.uintP num)

/-- Modelled from the spec: `ZParcel::storeSint`. -/
def storeSint (p : ZParcelSt) (id : ZUID) (num : Int) :
    OpOutcome Unit × ZParcelSt × List IOEvent :=
  storeObject p id SINTOBJ (.sintP num)

/-- Modelled from the spec: `ZParcel::storeFloat` (the double's raw bits). -/
def storeFloat (p : ZParcelSt) (id : ZUID) (bits : Nat) :
    OpOutcome Unit × ZParcelSt × List IOEvent :=
  storeObject p id FLOATOBJ (.floatP bits)

/-- Modelled from the spec: `ZParcel::storeZUID`. -/
def storeZUID (p : ZParcelSt) (id : ZUID) (uid : ZUID) :
    OpOutcome Unit × ZParcelSt × List IOEvent :=
  storeObject p id ZUIDOBJ (.zuidP uid)

/-- Modelled from the spec: `ZParcel::storeBlob`. -/
def storeBlob (p : ZParcelSt) (id : ZUID) (blob : List Nat) :
    OpOutcome Unit × ZParcelSt × List IOEvent :=
  storeObject p id BLOBOBJ (.blobP blob)

/-- Modelled from the spec: `ZParcel::storeString`. -/
def storeString (p : ZParcelSt) (id : ZUID) (str : List Nat) :
    OpOutcome Unit × ZParcelSt × List IOEvent :=
  storeObject p id STRINGOBJ (.stringP str)

/-- Modelled from the spec: `ZParcel::storeList`. -/
def storeList (p : ZParcelSt) (id : ZUID) (list : List ZUID) :
    OpOutcome Unit × ZParcelSt × List IOEvent :=
  storeObject p id LISTOBJ (.listP list)

/-- Modelled from the spec: `ZParcel::storeFile` stores a file object
holding two UID references — the UID of the string object with the file
name and the UID of the blob object with the content — rather than
embedding the data. -/
def storeFile (p : ZParcelSt) (id nameid dataid : ZUID) :
    OpOutcome Unit × ZParcelSt × List IOEvent :=
  storeObject p id FILEOBJ (.fileP nameid dataid)

/-- Modelled from the spec: `ZParcel::fetchUint` — fetch plus type check. -/
def fetchUint (p : ZParcelSt) (id : ZUID) :
    OpOutcome Nat × ZParcelSt × List IOEvent :=
  let r := fetchObject p id
  match r.1 with
  | .ok e =>
    match e.type == UINTOBJ, e.payload with
    | true, .uintP n => (.ok n, r.2.1, r.2.2)
    | _, _ => (.wrongType, r.2.1, r.2.2)
  | .notOpen => (.notOpen, r.2.1, r.2.2)
  | .wrongType => (.wrongType, r.2.1, r.2.2)
  | .err e => (.err e, r.2.1, r.2.2)

/-- Modelled from the spec: `ZParcel::fetchString` — fetch plus type
check. -/
def fetchString (p : ZParcelSt) (id : ZUID) :
    OpOutcome (List Nat) × ZParcelSt × List IOEvent :=
  let r := fetchObject p id
  match r.1 with
  | .ok e =>
    match e.type == STRINGOBJ, e.payload with
    | true, .stringP s => (.ok s, r.2.1, r.2.2)
    | _, _ => (.wrongType, r.2.1, r.2.2)
  | .notOpen => (.notOpen, r.2.1, r.2.2)
  | .wrongType => (.wrongType, r.2.1, r.2.2)
  | .err e => (.err e, r.2.1, r.2.2)

/-- Modelled from the spec: `ZParcel::fetchFile(id, nameid, dataid)` —
fetch the file object and return the two UID references it holds. -/
def fetchFile (p : ZParcelSt) (id : ZUID) :
    OpOutcome (ZUID × ZUID) × ZParcelSt × List IOEvent :=
  let r := fetchObject p id
  match r.1 with
  | .ok e =>
    match e.type == FILEOBJ, e.payload with
    | true, .fileP nameid dataid => (.ok (nameid, dataid), r.2.1, r.2.2)
    | _, _ => (.wrongType, r.2.1, r.2.2)
  | .notOpen => (.notOpen, r.2.1, r.2.2)
  | .wrongType => (.wrongType, r.2.1, r.2.2)
  | .err e => (.err e, r.2.1, r.2.2)

/-! ### Claims about the store façade -/

/-- Looking up a key in a list from which every pair with that key has been
filtered out finds nothing. -/
theorem lookup_filter_ne (id : ZUID) (l : List (ZUID × Entry)) :
    List.lookup id (l.filter (fun e => !(e.1 == id))) = none := by
  induction l with
  | nil => rfl
  | cons hd tl ih =>
    by_cases h : hd.1 = id
    · simp [List.filter_cons, h, ih]
    · have hne : (hd.1 == id) = false := by
        simp [h]
      have hne2 : (id == hd.1) = false := by
        simp
        exact fun he => h he.symm
      simp [List.filter_cons, hne, List.lookup, hne2, ih]

/-- C2: reading the header record validates it and fails with a typed
error on each defect — `ERR_SIG` on signature mismatch, `ERR_VERSION` on
an unsupported version, `ERR_CRC` when the stored checksum differs from
the checksum of the preceding fixed-size fields; a successful read implies
the checksum matched (never silently corrected); and on any read failure
`open` returns that error and leaves the parcel unopened. -/
theorem header_read_validates (d : List Nat) (p : ZParcelSt)
    (hlen : ParcelHeader.NODE_SIZE ≤ d.length) :
    (d.take 7 ≠ PARCEL_SIG → ParcelHeader.read d = .error .ERR_SIG) ∧
    (d.take 7 = PARCEL_SIG → readBE ((d.drop 7).take 1) ≠ VERSION1 →
      ParcelHeader.read d = .error .ERR_VERSION) ∧
    (d.take 7 = PARCEL_SIG → readBE ((d.drop 7).take 1) = VERSION1 →
      readBE ((d.drop 60).take 4) ≠ crc32 (d.take 60) →
      ParcelHeader.read d = .error .ERR_CRC) ∧
    (∀ h, ParcelHeader.read d = .ok h →
      readBE ((d.drop 60).take 4) = crc32 (d.take 60)) ∧
    (∀ e, ParcelHeader.read d = .error e → openParcel p d = (e, p)) := by
  have hnlt : ¬(d.length < ParcelHeader.NODE_SIZE) := Nat.not_lt.mpr hlen
  refine ⟨?_, ?_, ?_, ?_, ?_⟩
  · intro hsig
    simp [ParcelHeader.read, hnlt, hsig]
  · intro hsig hver
    simp [ParcelHeader.read, hnlt, hsig, hver]
  · intro hsig hver hcrc
    simp [ParcelHeader.read, hnlt, hsig, hver, hcrc]
  · intro h hok
    simp only [ParcelHeader.read] at hok
    split_ifs at hok with h1 h2 h3
    exact not_not.mp h3
  · intro e herr
    simp [openParcel, herr]

/-- A 64-byte candidate header whose signature is wrong. -/
def dBadSig : List Nat := List.replicate 64 0

/-- A 64-byte candidate header with a good signature and version 9. -/
def dBadVer : List Nat := PARCEL_SIG ++ [9] ++ List.replicate 56 0

/-- A 64-byte candidate header with a good signature and version but a
stored checksum of 0, which does not match the recomputed digest. -/
def dBadCrc : List Nat := PARCEL_SIG ++ [1] ++ List.replicate 56 0

/-- Concrete witness for `header_read_validates`: each defect is reported
with its typed error, and `open` on the bad-signature bytes returns
`ERR_SIG` leaving the parcel closed. -/
theorem header_read_validates_witness :
    ParcelHeader.read dBadSig = .error .ERR_SIG ∧
    ParcelHeader.read dBadVer = .error .ERR_VERSION ∧
    ParcelHeader.read dBadCrc = .error .ERR_CRC ∧
    openParcel initParcel dBadSig = (.ERR_SIG, initParcel) := by
  have h1 := (header_read_validates dBadSig initParcel (by decide)).1 (by decide)
  have h2 := (header_read_validates dBadVer initParcel (by decide)).2.1
    (by decide) (by decide)
  have h3 := (header_read_validates dBadCrc initParcel (by decide)).2.2.1
    (by decide) (by decide) (by decide)
  have h4 := (header_read_validates dBadSig initParcel (by decide)).2.2.2.2
    .ERR_SIG h1
  exact ⟨h1, h2, h3, h4⟩

/-- C4: every store, fetch or remove operation invoked while the parcel is
not `OPEN` fails immediately with the distinct `notOpen` precondition
failure, leaves the parcel unchanged, and performs no I/O against the
block accessor (empty event trace); and the page-oriented parser's
record-adding operation returns false for every input. -/
theorem non_open_ops_fail (p : ZParcelSt) (id nameid dataid uid : ZUID)
    (b : Bool) (n : Nat) (i : Int) (bs : List Nat) (us : List ZUID)
    (hnot : p._state ≠ .OPEN) :
    storeNull p id = (.notOpen, p, []) ∧
    storeBool p id b = (.notOpen, p, []) ∧
    storeUint p id n = (.notOpen, p, []) ∧
    storeSint p id i = (.notOpen, p, []) ∧
    storeFloat p id n = (.notOpen, p, []) ∧
    storeZUID p id uid = (.notOpen, p, []) ∧
    storeBlob p id bs = (.notOpen, p, []) ∧
    storeString p id bs = (.notOpen, p, []) ∧
    storeList p id us = (.notOpen, p, []) ∧
    storeFile p id nameid dataid = (.notOpen, p, []) ∧
    fetchObject p id = (.notOpen, p, []) ∧
    fetchUint p id = (.notOpen, p, []) ∧
    fetchString p id = (.notOpen, p, []) ∧
    fetchFile p id = (.notOpen, p, []) ∧
    removeObject p id = (.notOpen, p, []) ∧
    (∀ q f fields, ZParcel4Parser.addRecord q f fields = false) := by
  simp [storeNull, storeBool, storeUint, storeSint, storeFloat, storeZUID,
    storeBlob, storeString, storeList, storeFile, storeObject, fetchObject,
    fetchUint, fetchString, fetchFile, removeObject, hnot,
    ZParcel4Parser.addRecord]

/-- A sample UID. -/
def uidA : ZUID := List.replicate 16 1

/-- A second sample UID. -/
def uidB : ZUID := List.replicate 16 2

/-- A third sample UID. -/
def uidC : ZUID := List.replicate 16 3

/-- Concrete witness for `non_open_ops_fail`: a freshly constructed
(closed) parcel rejects a representative store, fetch and remove without
touching the file. -/
theorem non_open_ops_fail_witness :
    storeUint initParcel uidA 7 = (.notOpen, initParcel, []) ∧
    fetchFile initParcel uidA = (.notOpen, initParcel, []) ∧
    removeObject initParcel uidA = (.notOpen, initParcel, []) := by
  have h := non_open_ops_fail initParcel uidA uidB uidC uidA true 7 0 [] []
    (by decide)
  exact ⟨h.2.2.1, h.2.2.2.2.2.2.2.2.2.2.2.2.2.1, h.2.2.2.2.2.2.2.2.2.2.2.2.2.2.1⟩

/-- A sample open parcel holding one unsigned-integer object under
`uidA`. -/
def sampleParcel : ZParcelSt :=
  { _state := .OPEN, _header := some defaultHeader,
    objects := [(uidA, ⟨UINTOBJ, .uintP 42⟩)] }

/-- C5: for every UID with no object stored under it, and for every UID
just removed by `removeObject`, `getType` returns the sentinel
`UNKNOWNOBJ` — whose numeric value is 255 — rather than signalling an
error. -/
theorem getType_absent_unknown (p : ZParcelSt) (id : ZUID) :
    UNKNOWNOBJ = 255 ∧
    (List.lookup id p.objects = none → getType p id = UNKNOWNOBJ) ∧
    (p._state = .OPEN → getType (removeObject p id).2.1 id = UNKNOWNOBJ) := by
  refine ⟨rfl, ?_, ?_⟩
  · intro habs
    simp [getType, habs]
  · intro hopen
    simp only [removeObject, hopen]
    cases hl : List.lookup id p.objects with
    | none => simp [getType, hl]
    | some e => simp [getType, hl, lookup_filter_ne]

/-- Concrete witness for `getType_absent_unknown`: on the sample parcel a
never-stored UID reports `UNKNOWNOBJ`, and so does `uidA` right after its
removal. -/
theorem getType_absent_unknown_witness :
    getType sampleParcel uidB = UNKNOWNOBJ ∧
    getType (removeObject sampleParcel uidA).2.1 uidA = UNKNOWNOBJ :=
  ⟨(getType_absent_unknown sampleParcel uidB).2.1 (by decide),
   (getType_absent_unknown sampleParcel uidA).2.2 (by decide)⟩

/-- C6: for every stored file object — an entry of type `FILEOBJ` holding
the UID of the string object with the file name and the UID of the blob
object with the content — `fetchFile` returns exactly those two UID
references (not embedded name or content data); in particular a
`storeFile` followed by `fetchFile` on an open parcel returns the stored
pair. -/
theorem fetchFile_returns_refs (p : ZParcelSt) (id nameid dataid : ZUID)
    (hopen : p._state = .OPEN) :
    (List.lookup id p.objects = some ⟨FILEOBJ, .fileP nameid dataid⟩ →
      (fetchFile p id).1 = .ok (nameid, dataid)) ∧
    (fetchFile (storeFile p id nameid dataid).2.1 id).1 = .ok (nameid, dataid) := by
  constructor
  · intro hl
    simp [fetchFile, fetchObject, hopen, hl, FILEOBJ]
  · simp [fetchFile, fetchObject, storeFile, storeObject, hopen, FILEOBJ,
      List.lookup]

/-- Concrete witness for `fetchFile_returns_refs`: storing a file object
under `uidA` referencing name `uidB` and content `uidC` and fetching it
back returns the two UIDs. -/
theorem fetchFile_returns_refs_witness :
    (fetchFile (storeFile sampleParcel uidA uidB uidC).2.1 uidA).1 =
      .ok (uidB, uidC) :=
  (fetchFile_returns_refs sampleParcel uidA uidB uidC (by decide)).2

/-! ### The façade state machine (C7) -/

/-- One façade operation, with its inputs. -/
inductive ZOp where
  | opCreate
  | opOpen (d : List Nat)
  | opClose
  | opStoreNull (id : ZUID)
  | opStoreBool (id : ZUID) (b : Bool)
  | opStoreUint (id : ZUID) (n : Nat)
  | opStoreSint (id : ZUID) (i : Int)
  | opStoreFloat (id : ZUID) (bits : Nat)
  | opStoreZUID (id u : ZUID)
  | opStoreBlob (id : ZUID) (bs : List Nat)
  | opStoreString (id : ZUID) (bs : List Nat)
  | opStoreList (id : ZUID) (us : List ZUID)
  | opStoreFile (id nameid dataid : ZUID)
  | opFetch (id : ZUID)
  | opRemove (id : ZUID)

/-- The parcel state reached after one façade operation. -/
def step (p : ZParcelSt) : ZOp → ZParcelSt
  | .opCreate => (createParcel p).2
  | .opOpen d => (openParcel p d).2
  | .opClose => closeParcel p
  | .opStoreNull id => (storeNull p id).2.1
  | .opStoreBool id b => (storeBool p id b).2.1
  | .opStoreUint id n => (storeUint p id n).2.1
  | .opStoreSint id i => (storeSint p id i).2.1
  | .opStoreFloat id bits => (storeFloat p id bits).2.1
  | .opStoreZUID id u => (storeZUID p id u).2.1
  | .opStoreBlob id bs => (storeBlob p id bs).2.1
  | .opStoreString id bs => (storeString p id bs).2.1
  | .opStoreList id us => (storeList p id us).2.1
  | .opStoreFile id nameid dataid => (storeFile p id nameid dataid).2.1
  | .opFetch id => (fetchObject p id).2.1
  | .opRemove id => (removeObject p id).2.1

/-- No single operation can move a non-`LOCKED` parcel into `LOCKED`. -/
theorem step_not_locked (p : ZParcelSt) (op : ZOp)
    (h : p._state ≠ .LOCKED) : (step p op)._state ≠ .LOCKED := by
  have hstore : ∀ id t pl, ((storeObject p id t pl).2.1)._state ≠ .LOCKED := by
    intro id t pl
    by_cases hs : p._state = .OPEN <;> simp [storeObject, hs, h]
  cases op with
  | opCreate => simp [step, createParcel]
  | opOpen d =>
    simp only [step, openParcel]
    cases ParcelHeader.read d <;> simp [h]
  | opClose => simp [step, closeParcel, h]
  | opStoreNull id =>
    simpa [step, storeNull] using hstore id NULLOBJ ObjPayload.nullP
  | opStoreBool id b =>
    simpa [step, storeBool] using hstore id BOOLOBJ (ObjPayload.boolP b)
  | opStoreUint id n =>
    simpa [step, storeUint] using hstore id UINTOBJ (ObjPayload.uintP n)
  | opStoreSint id i =>
    simpa [step, storeSint] using hstore id SINTOBJ (ObjPayload.sintP i)
  | opStoreFloat id bits =>
    simpa [step, storeFloat] using hstore id FLOATOBJ (ObjPayload.floatP bits)
  | opStoreZUID id u =>
    simpa [step, storeZUID] using hstore id ZUIDOBJ (ObjPayload.zuidP u)
  | opStoreBlob id bs =>
    simpa [step, storeBlob] using hstore id BLOBOBJ (ObjPayload.blobP bs)
  | opStoreString id bs =>
    simpa [step, storeString] using hstore id STRINGOBJ (ObjPayload.stringP bs)
  | opStoreList id us =>
    simpa [step, storeList] using hstore id LISTOBJ (ObjPayload.listP us)
  | opStoreFile id nameid dataid =>
    simpa [step, storeFile] using hstore id FILEOBJ (ObjPayload.fileP nameid dataid)
  | opFetch id =>
    simp only [step, fetchObject]
    by_cases hs : p._state = .OPEN
    · cases List.lookup id p.objects <;> simp [hs, h]
    · simp [hs, h]
  | opRemove id =>
    simp only [step, removeObject]
    by_cases hs : p._state = .OPEN
    · cases List.lookup id p.objects <;> simp [hs, h]
    · simp [hs, h]

/-- C7: the parcel state never becomes `LOCKED` — starting from the
initial `CLOSED` state, no sequence of create/open/close/store/fetch/
remove operations reaches the declared `LOCKED` state. -/
theorem never_locked (ops : List ZOp) :
    (ops.foldl step initParcel)._state ≠ parcelstate.LOCKED := by
  have key : ∀ (l : List ZOp) (p : ZParcelSt), p._state ≠ .LOCKED →
      (l.foldl step p)._state ≠ .LOCKED := by
    intro l
    induction l with
    | nil => intro p h; exact h
    | cons op tl ih =>
      intro p h
      exact ih (step p op) (step_not_locked p op h)
  exact key ops initParcel (by decide)

end ZParcel
